import Mathlib

/-!
Shallow embedding of the objective-function abstraction of
`include/xgboost/objective.h` (xgboost): the `ObjFunction` interface with its
default method implementations, a minimal model of the collaborating data
types (`MetaInfo` with its label tensor, `RegTree`, `GradientPair`), and a
spec-modelled view of the objective registry.  Machine floats are embedded as
exact rationals; `LOG(FATAL)` is embedded as `Except.error`.
-/

namespace XGBoost

/-- One example's first-order gradient and second-order gradient (Hessian),
as produced by `GetGradient`. -/
structure GradientPair where
  grad : ℚ
  hess : ℚ
deriving Repr, DecidableEq

/-- A two-dimensional tensor as used for `MetaInfo::labels`: an explicit
shape (rows, columns) plus flattened values.  `Shape i` mirrors the C++
`labels.Shape(i)` accessor. -/
structure Tensor where
  shape0 : Nat
  shape1 : Nat
  values : List ℚ
deriving Repr, DecidableEq

/-- `t.Shape 0` is the number of rows, `t.Shape 1` the number of columns. -/
def Tensor.Shape (t : Tensor) (i : Nat) : Nat :=
  if i = 0 then t.shape0 else t.shape1

/-- Meta information about the training data consumed by the objective:
the label matrix and per-example weights. -/
structure MetaInfo where
  labels : Tensor
  weights : List ℚ
deriving Repr, DecidableEq

/-- A node of a regression tree: either a leaf carrying a value, or an
internal split carrying its feature index, split threshold and the indices
of its two children. -/
inductive TreeNode where
  | leaf (value : ℚ)
  | split (splitIndex : Nat) (splitCond : ℚ) (leftChild rightChild : Nat)
deriving Repr, DecidableEq

/-- A regression tree as a flat array of nodes. -/
structure RegTree where
  nodes : List TreeNode
deriving Repr, DecidableEq

/-- The topology view of a node: `none` for a leaf (its value is erased),
and the split data (feature index, threshold, child pointers) for an
internal node. -/
def TreeNode.topologyView : TreeNode → Option (Nat × ℚ × Nat × Nat)
  | TreeNode.leaf _ => none
  | TreeNode.split i c l r => some (i, c, l, r)

/-- The topology of a tree: node count and, per node, everything except
leaf values. -/
def RegTree.topology (t : RegTree) : List (Option (Nat × ℚ × Nat × Nat)) :=
  t.nodes.map TreeNode.topologyView

/-- The default (base-class) `PredTransform` of `objective.h`: the body is
empty, so the predictions buffer is left unchanged. -/
def defaultPredTransform (io_preds : List ℚ) : List ℚ :=
  io_preds

/-- The default (base-class) `ProbToMargin` of `objective.h`:
`return base_score;`. -/
def defaultProbToMargin (base_score : ℚ) : ℚ :=
  base_score

/-- The default (base-class) `Targets` of `objective.h`: fatal when the
label matrix declares more than one column, otherwise returns 1. -/
def defaultTargets (info : MetaInfo) : Except String Nat :=
  if info.labels.Shape 1 > 1 then
    Except.error "multioutput is not supported by current objective function"
  else
    Except.ok 1

/-- An objective function: the virtual interface of `objective.h`.  The pure
virtual methods (`GetGradient`, `DefaultEvalMetric`) are fields without
defaults; each optional virtual method is a field that is `none` when the
concrete objective does not override it, in which case dispatch falls back
to the base-class default from the header. -/
structure ObjFunction where
  getGradient : List ℚ → MetaInfo → Int → List GradientPair
  defaultEvalMetric : String
  predTransform : List ℚ → List ℚ := defaultPredTransform
  evalTransformOverride : Option (List ℚ → List ℚ) := none
  probToMargin : ℚ → ℚ := defaultProbToMargin
  targetsOverride : Option (MetaInfo → Except String Nat) := none
  updateTreeLeafOverride :
    Option (List Int → MetaInfo → List ℚ → RegTree → RegTree) := none

/-- Virtual dispatch for `EvalTransform`: the base-class body is
`this->PredTransform(io_preds)`, taken when no override is installed. -/
def ObjFunction.evalTransform (o : ObjFunction) (io_preds : List ℚ) : List ℚ :=
  match o.evalTransformOverride with
  | some f => f io_preds
  | none => o.predTransform io_preds

/-- Virtual dispatch for `Targets`: the base-class default is taken when no
override is installed. -/
def ObjFunction.targets (o : ObjFunction) (info : MetaInfo) : Except String Nat :=
  match o.targetsOverride with
  | some f => f info
  | none => defaultTargets info

/-- Virtual dispatch for `UpdateTreeLeaf`: the base-class body is empty,
so without an override the tree is returned unchanged. -/
def ObjFunction.updateTreeLeaf (o : ObjFunction) (position : List Int)
    (info : MetaInfo) (prediction : List ℚ) (p_tree : RegTree) : RegTree :=
  match o.updateTreeLeafOverride with
  | some f => f position info prediction p_tree
  | none => p_tree

/-- Modelled from the spec: `GetGradient` is a pure virtual method in
`objective.h` and the concrete loss implementations are not among these
sources.  Per the spec, for every example the objective computes the pair
`(dLoss/dpred, d2Loss/dpred2)` at the current prediction and multiplies both
components by the example's weight. -/
def specGetGradient (lossGrad lossHess : ℚ → ℚ → ℚ)
    (preds labels weights : List ℚ) : List GradientPair :=
  List.zipWith
    (fun p lw => GradientPair.mk (lw.2 * lossGrad p lw.1) (lw.2 * lossHess p lw.1))
    preds (List.zip labels weights)

/-- A created objective instance: its allocation identity, the name it was
created under, and whether `Configure` has been applied to it yet. -/
structure ObjInstance where
  instanceId : Nat
  objName : String
  configured : Bool
deriving Repr, DecidableEq

/-- The lookup error raised by `Create` for an unknown name: it carries the
offending name and the list of known registered names. -/
structure LookupError where
  missingName : String
  knownNames : List String
deriving Repr, DecidableEq

/-- Modelled from the spec: the registry (the dmlc registry behind
`XGBOOST_REGISTER_OBJECTIVE` and `ObjFunction::Create` in `objective.cc`) is
not among these sources; per the spec it is a name-to-factory map, embedded
here by its list of registered names. -/
abbrev Registry : Type := List String

/-- Modelled from the spec: `Register(name, factory)` fails at registration
time when `name` is already registered, and otherwise appends the new
entry. -/
def registerObjective (r : Registry) (name : String) : Except String Registry :=
  if name ∈ r then
    Except.error (name ++ " already registered")
  else
    Except.ok (List.append r [name])

/-- Modelled from the spec: `Create(name, context)` looks `name` up, fails
with a lookup error listing the known names when it is not registered, and
otherwise runs the factory, which allocates a fresh unconfigured instance;
freshness is embedded by threading an allocation counter. -/
def create (r : Registry) (name : String) (counter : Nat) :
    Except LookupError (ObjInstance × Nat) :=
  if name ∈ r then
    Except.ok (ObjInstance.mk counter name false, counter + 1)
  else
    Except.error (LookupError.mk name r)

/-- Configuring an instance touches only that instance's own state. -/
def configureInstance (inst : ObjInstance) : ObjInstance :=
  ObjInstance.mk inst.instanceId inst.objName true

/-- A concrete single-target objective (squared error, per the spec's
end-to-end scenario) that overrides none of the optional methods; used to
exercise the base-class defaults on concrete inputs. -/
def sampleObj : ObjFunction where
  getGradient := fun preds info _ =>
    specGetGradient (fun p l => p - l) (fun _ _ => 1) preds
      info.labels.values info.weights
  defaultEvalMetric := "rmse"

/-- A one-column `MetaInfo` with three labelled examples. -/
def sampleInfo1 : MetaInfo :=
  MetaInfo.mk (Tensor.mk 3 1 [1, 2, 3]) [1, 1, 1]

/-- A three-column (multi-output) `MetaInfo`. -/
def sampleInfo3 : MetaInfo :=
  MetaInfo.mk (Tensor.mk 2 3 [1, 2, 3, 4, 5, 6]) [1, 1]

/-- A `MetaInfo` whose label matrix declares zero columns. -/
def sampleInfo0 : MetaInfo :=
  MetaInfo.mk (Tensor.mk 0 0 []) []

/-- A small concrete tree: one split with two leaf children. -/
def sampleTree : RegTree :=
  RegTree.mk [TreeNode.split 0 (1/2) 1 2, TreeNode.leaf 1, TreeNode.leaf (-1)]

/-- C1: for every MetaInfo, the default `Targets` implementation (an
objective with no `Targets` override) returns 1 when the label matrix has at
most one column, and fails fatally with the message that multi-output is not
supported when the label matrix declares more than one column. -/
theorem C1_targets_default (o : ObjFunction) (info : MetaInfo)
    (hdef : o.targetsOverride = none) :
    (info.labels.Shape 1 ≤ 1 → o.targets info = Except.ok 1) ∧
    (1 < info.labels.Shape 1 →
      o.targets info =
        Except.error "multioutput is not supported by current objective function") := by
  have hd : o.targets info = defaultTargets info := by
    unfold ObjFunction.targets
    rw [hdef]
  constructor
  · intro h
    rw [hd]
    unfold defaultTargets
    rw [if_neg (by omega)]
  · intro h
    rw [hd]
    unfold defaultTargets
    rw [if_pos h]

/-- C1 witness: on a one-column label matrix the default `Targets` returns 1,
and on a three-column label matrix it fails with the multi-output message. -/
theorem C1_targets_default_witness :
    sampleObj.targets sampleInfo1 = Except.ok 1 ∧
    sampleObj.targets sampleInfo3 =
      Except.error "multioutput is not supported by current objective function" :=
  ⟨(C1_targets_default sampleObj sampleInfo1 rfl).1 (by decide),
   (C1_targets_default sampleObj sampleInfo3 rfl).2 (by decide)⟩

/-- C2: for every predictions buffer, an objective that does not override
`EvalTransform` has `EvalTransform` produce exactly the result of its own
`PredTransform` on that buffer (the base-class default delegates). -/
theorem C2_evalTransform_delegates (o : ObjFunction) (io_preds : List ℚ)
    (hdef : o.evalTransformOverride = none) :
    o.evalTransform io_preds = o.predTransform io_preds := by
  unfold ObjFunction.evalTransform
  rw [hdef]

/-- C2 witness: the delegation on a concrete buffer. -/
theorem C2_evalTransform_delegates_witness :
    sampleObj.evalTransform [1, 2, 3] = sampleObj.predTransform [1, 2, 3] :=
  C2_evalTransform_delegates sampleObj [1, 2, 3] rfl

/-- C3: the default `UpdateTreeLeaf` (an objective with no override) leaves
the tree entirely unchanged, for every leaf-assignment vector, MetaInfo,
prediction buffer and tree; in particular the tree's topology (node count
and all split data) is untouched. -/
theorem C3_updateTreeLeaf_default_noop (o : ObjFunction) (position : List Int)
    (info : MetaInfo) (prediction : List ℚ) (tree : RegTree)
    (hdef : o.updateTreeLeafOverride = none) :
    o.updateTreeLeaf position info prediction tree = tree ∧
    (o.updateTreeLeaf position info prediction tree).topology = tree.topology ∧
    (o.updateTreeLeaf position info prediction tree).nodes.length =
      tree.nodes.length := by
  have hd : o.updateTreeLeaf position info prediction tree = tree := by
    unfold ObjFunction.updateTreeLeaf
    rw [hdef]
  exact ⟨hd, by rw [hd], by rw [hd]⟩

/-- C3 witness: the default `UpdateTreeLeaf` leaves a concrete tree
unchanged. -/
theorem C3_updateTreeLeaf_default_noop_witness :
    sampleObj.updateTreeLeaf [1, 2, 1] sampleInfo1 [1, 2, 3] sampleTree =
      sampleTree ∧
    (sampleObj.updateTreeLeaf [1, 2, 1] sampleInfo1 [1, 2, 3]
      sampleTree).topology = sampleTree.topology ∧
    (sampleObj.updateTreeLeaf [1, 2, 1] sampleInfo1 [1, 2, 3]
      sampleTree).nodes.length = sampleTree.nodes.length :=
  C3_updateTreeLeaf_default_noop sampleObj [1, 2, 1] sampleInfo1 [1, 2, 3]
    sampleTree rfl

/-- C4: with the default implementations (identity `ProbToMargin` and no-op
`PredTransform`), `ProbToMargin` is a left inverse of the prediction-space
transform: applying `PredTransform` to the margin obtained from any value p
yields p back, both for a one-element buffer and elementwise on any
buffer. -/
theorem C4_probToMargin_left_inverse (o : ObjFunction) (p : ℚ) (ps : List ℚ)
    (hpt : o.predTransform = defaultPredTransform)
    (hpm : o.probToMargin = defaultProbToMargin) :
    o.predTransform [o.probToMargin p] = [p] ∧
    o.predTransform (List.map o.probToMargin ps) = ps := by
  rw [hpt, hpm]
  refine ⟨rfl, ?_⟩
  unfold defaultPredTransform
  exact List.map_id' ps

/-- C4 witness: the round trip on concrete values. -/
theorem C4_probToMargin_left_inverse_witness :
    sampleObj.predTransform [sampleObj.probToMargin (1/2)] = [1/2] ∧
    sampleObj.predTransform (List.map sampleObj.probToMargin [1/4, 3/4]) =
      [1/4, 3/4] :=
  C4_probToMargin_left_inverse sampleObj (1/2) [1/4, 3/4] rfl rfl

/-- C5: the default `ProbToMargin` is the identity: for every base score b
it returns b unchanged. -/
theorem C5_probToMargin_default_identity (base_score : ℚ) :
    defaultProbToMargin base_score = base_score :=
  rfl

/-- C6: the default `PredTransform` leaves every predictions buffer
unchanged, is a no-op on the empty buffer, and is idempotent. -/
theorem C6_predTransform_default_noop (io_preds : List ℚ) :
    defaultPredTransform io_preds = io_preds ∧
    defaultPredTransform ([] : List ℚ) = ([] : List ℚ) ∧
    defaultPredTransform (defaultPredTransform io_preds) =
      defaultPredTransform io_preds :=
  ⟨rfl, rfl, rfl⟩

/-- C7: for well-formed inputs (labels and weights as long as the
predictions), `GetGradient` produces exactly one gradient pair per
prediction: the output buffer has the same length as the predictions
buffer. -/
theorem C7_getGradient_length (lossGrad lossHess : ℚ → ℚ → ℚ)
    (preds labels weights : List ℚ)
    (hl : labels.length = preds.length)
    (hw : weights.length = preds.length) :
    (specGetGradient lossGrad lossHess preds labels weights).length =
      preds.length := by
  unfold specGetGradient
  rw [List.length_zipWith, List.length_zip]
  omega

/-- C7 witness: the spec's squared-error scenario, three examples. -/
theorem C7_getGradient_length_witness :
    (specGetGradient (fun p l => p - l) (fun _ _ => 1)
      [0, 0, 0] [1, 2, 3] [1, 1, 1]).length = 3 :=
  C7_getGradient_length (fun p l => p - l) (fun _ _ => 1)
    [0, 0, 0] [1, 2, 3] [1, 1, 1] rfl rfl

/-- C8: `Create` on an unregistered name fails with a lookup error that
carries the full list of known registered names; on a registered name each
call returns a fresh unconfigured instance, two successive calls return
instances with distinct identities, and configuring the first leaves the
second untouched. -/
theorem C8_create_lookup (r : Registry) (name : String) (counter : Nat) :
    (name ∉ r →
      create r name counter = Except.error (LookupError.mk name r)) ∧
    (name ∈ r →
      ∃ inst1 inst2 : ObjInstance,
        create r name counter = Except.ok (inst1, counter + 1) ∧
        create r name (counter + 1) = Except.ok (inst2, counter + 2) ∧
        inst1.instanceId ≠ inst2.instanceId ∧
        inst1.configured = false ∧ inst2.configured = false ∧
        (configureInstance inst1).configured = true ∧
        (configureInstance inst1).instanceId ≠ inst2.instanceId) := by
  constructor
  · intro h
    unfold create
    rw [if_neg h]
  · intro h
    refine ⟨ObjInstance.mk counter name false,
      ObjInstance.mk (counter + 1) name false, ?_, ?_, ?_, rfl, rfl, rfl, ?_⟩
    · unfold create
      rw [if_pos h]
    · unfold create
      rw [if_pos h]
    · have hne : counter ≠ counter + 1 := by omega
      exact hne
    · have hne : counter ≠ counter + 1 := by omega
      exact hne

/-- C8 witness: an unregistered name fails listing the known names, and a
registered name yields two fresh, independently configurable instances. -/
theorem C8_create_lookup_witness :
    (create ["reg:squarederror"] "binary:logistic" 0 =
      Except.error (LookupError.mk "binary:logistic" ["reg:squarederror"])) ∧
    (∃ inst1 inst2 : ObjInstance,
      create ["reg:squarederror"] "reg:squarederror" 0 =
        Except.ok (inst1, 1) ∧
      create ["reg:squarederror"] "reg:squarederror" 1 =
        Except.ok (inst2, 2) ∧
      inst1.instanceId ≠ inst2.instanceId ∧
      inst1.configured = false ∧ inst2.configured = false ∧
      (configureInstance inst1).configured = true ∧
      (configureInstance inst1).instanceId ≠ inst2.instanceId) :=
  ⟨(C8_create_lookup ["reg:squarederror"] "binary:logistic" 0).1 (by decide),
   (C8_create_lookup ["reg:squarederror"] "reg:squarederror" 0).2 (by decide)⟩

/-- C9: registering a name that is already registered fails at registration
time with a message naming the duplicate, rather than silently
overwriting. -/
theorem C9_register_duplicate (r : Registry) (name : String)
    (hmem : name ∈ r) :
    registerObjective r name =
      Except.error (name ++ " already registered") := by
  unfold registerObjective
  rw [if_pos hmem]

/-- C9 witness: a duplicate registration on a concrete registry fails. -/
theorem C9_register_duplicate_witness :
    registerObjective ["reg:squarederror", "binary:logistic"]
        "binary:logistic" =
      Except.error ("binary:logistic" ++ " already registered") :=
  C9_register_duplicate ["reg:squarederror", "binary:logistic"]
    "binary:logistic" (by decide)

/-- C10: the default `Targets` implementation returns 1 without error for
every MetaInfo whose label matrix declares zero columns, since the fatal
branch fires only for strictly more than one column. -/
theorem C10_targets_zero_columns (o : ObjFunction) (info : MetaInfo)
    (hdef : o.targetsOverride = none) (hz : info.labels.Shape 1 = 0) :
    o.targets info = Except.ok 1 := by
  have hd : o.targets info = defaultTargets info := by
    unfold ObjFunction.targets
    rw [hdef]
  rw [hd]
  unfold defaultTargets
  rw [if_neg (by omega)]

/-- C10 witness: a MetaInfo with a zero-column label matrix. -/
theorem C10_targets_zero_columns_witness :
    sampleObj.targets sampleInfo0 = Except.ok 1 :=
  C10_targets_zero_columns sampleObj sampleInfo0 rfl rfl

end XGBoost
